import Mathlib

/-!
Shallow embedding of `export_stl.py`, a script that classifies the faces of a
CAD solid by their surface color and exports each group of faces as a separate
STL mesh.  Pure Python functions become Lean functions; the external CAD
collaborators (geometry kernel, mesher, file writer) are modelled as free term
algebras, so that the structure of every kernel/mesher call made by the script
is recorded in the result; `try`/`raise` control flow becomes `Except`.
Colors are rational-valued (the script compares RGB channels with `abs` and
`<` only, so exact arithmetic models the comparisons faithfully).
-/

namespace ExportStl

/-- An RGB triple, the model of the 3-tuples the script compares
(`INLET_COLOR`, `OUTLET_COLOR`, and the slice `colors[i][:3]`). -/
structure RGB where
  r : ℚ
  g : ℚ
  b : ℚ
deriving DecidableEq

/-- Tuple indexing `rgb[i]` on an RGB triple (the script only ever uses
indices `0`, `1`, `2`, via `range(3)`). -/
def RGB.channel (c : RGB) : ℕ → ℚ
  | 0 => c.r
  | 1 => c.g
  | 2 => c.b
  | _ => 0

/-- An RGBA quadruple, one entry of the `DiffuseColor` list. -/
structure RGBA where
  r : ℚ
  g : ℚ
  b : ℚ
  a : ℚ
deriving DecidableEq, Inhabited

/-- The slice `colors[i][:3]`: the first three channels of an RGBA entry. -/
def RGBA.rgb (c : RGBA) : RGB :=
  ⟨c.r, c.g, c.b⟩

/-- Model of `is_color_match(rgb, target, tolerance)`:
`all(abs(rgb[i] - target[i]) < tolerance for i in range(3))`. -/
def is_color_match (rgb target : RGB) (tolerance : ℚ) : Bool :=
  (List.range 3).all fun i => decide (|rgb.channel i - target.channel i| < tolerance)

/-- Loop body of `classify_faces` at loop index `i` (0-based):
`fid = i + 1`, `rgb = colors[i][:3]`, then append `fid` to the inlet list on
an inlet match, else to the outlet list on an outlet match, else to the body
list.  `colors[i]` is modelled totally with `getD`; the pipeline only calls
`classify_faces` when `len(colors) == len(faces)`, so the default is never
read there. -/
def classifyStep (colors : List RGBA) (inlet_color outlet_color : RGB) (tolerance : ℚ)
    (acc : List ℕ × List ℕ × List ℕ) (i : ℕ) : List ℕ × List ℕ × List ℕ :=
  let fid := i + 1
  let rgb := (colors.getD i default).rgb
  if is_color_match rgb inlet_color tolerance then
    (acc.1 ++ [fid], acc.2.1, acc.2.2)
  else if is_color_match rgb outlet_color tolerance then
    (acc.1, acc.2.1 ++ [fid], acc.2.2)
  else
    (acc.1, acc.2.1, acc.2.2 ++ [fid])

/-- Model of `classify_faces(faces, colors, inlet_color, outlet_color,
tolerance)`: the `for i in range(len(faces))` loop over `classifyStep`,
starting from three empty lists and returning
`(inlet_ids, outlet_ids, body_ids)`.  `Face` values are opaque to the
classifier (only `len(faces)` is read), so the face list may hold any shapes. -/
def classify_faces (faces : List α) (colors : List RGBA)
    (inlet_color outlet_color : RGB) (tolerance : ℚ) :
    List ℕ × List ℕ × List ℕ :=
  (List.range faces.length).foldl (classifyStep colors inlet_color outlet_color tolerance)
    ([], [], [])

/-- Abstract token for the 4x4 matrix of a global placement
(`Placement.toMatrix()` result); the script never inspects it, it is only
passed to `transformGeometry`. -/
structure GpMatrix where
  data : ℕ
deriving DecidableEq

/-- Abstract token for a global placement (`body.getGlobalPlacement()`). -/
structure Placement where
  data : ℕ
deriving DecidableEq, Inhabited

/-- Model of `Placement.toMatrix()`. -/
def Placement.toMatrix (p : Placement) : GpMatrix :=
  ⟨p.data⟩

/-- Free term algebra over the geometry kernel calls the script makes:
`prim i` is an original face of the solid's shape, `copy s` is `s.copy()`,
`transformGeometry s m` is `s.transformGeometry(m)`, and `shell l` is
`Part.Shell(l)`.  Recording the calls as constructors lets theorems state
which kernel operations were applied, and in which order. -/
inductive Shape where
  | prim (id : ℕ)
  | copy (s : Shape)
  | transformGeometry (s : Shape) (m : GpMatrix)
  | shell (faces : List Shape)

instance : Inhabited Shape := ⟨.prim 0⟩

/-- Free term for `MeshPart.meshFromShape(Shape=…, LinearDeflection=…,
AngularDeflection=…, Relative=…)`. -/
inductive Mesh where
  | fromShape (shape : Shape) (linearDeflection angularDeflection : ℚ) (relative : Bool)

/-- The tip feature of a body: `shape` models `Tip.Shape.Faces` when the
`Shape` attribute exists (`none` models a missing attribute), `diffuseColor`
models `Tip.ViewObject.DiffuseColor` when that attribute exists. -/
structure Feature where
  shape : Option (List Shape)
  diffuseColor : Option (List RGBA)

/-- A document object: `label`/`typeId` as in FreeCAD, `tip` models
`body.Tip` (`none` for a falsy/absent tip), `globalPlacement` models
`getGlobalPlacement()`, and `group` models the member list `o.Group` of an
`App::Part`. -/
inductive Obj where
  | mk (label typeId : String) (tip : Option Feature) (globalPlacement : Placement)
      (group : List Obj)

def Obj.label : Obj → String
  | .mk l _ _ _ _ => l

def Obj.typeId : Obj → String
  | .mk _ t _ _ _ => t

def Obj.tip : Obj → Option Feature
  | .mk _ _ t _ _ => t

def Obj.globalPlacement : Obj → Placement
  | .mk _ _ _ p _ => p

def Obj.group : Obj → List Obj
  | .mk _ _ _ _ g => g

/-- The `RuntimeError`s the script can raise, one constructor per `raise`
site, carrying the data interpolated into the message. -/
inductive Err where
  | partHasNoBody (partLabel : String)
  | noBodyWithLabel (label : String)
  | noValidTip
  | noDiffuseColor
  | countMismatch (colorCount faceCount : ℕ)
  | noActiveDocument
deriving DecidableEq

/-- Model of `find_body_by_label(doc, target_label)`.  The Python loop
`break`s at the first object whose `Label` matches, so afterwards at most one
of `part`/`body` is set, according to that first object's `TypeId`; then a
direct body is used, else the first `PartDesign::Body` member of the part,
else the lookup fails. -/
def find_body_by_label (doc : List Obj) (target_label : String) : Except Err Obj :=
  let hit := doc.find? fun o => o.label == target_label
  let part := hit.filter fun o => o.typeId == "App::Part"
  let body := hit.filter fun o => o.typeId == "PartDesign::Body"
  match body with
  | some b => .ok b
  | none =>
    match part with
    | some p =>
      match p.group.filter (fun o => o.typeId == "PartDesign::Body") with
      | [] => .error (.partHasNoBody p.label)
      | b :: _ => .ok b
    | none => .error (.noBodyWithLabel target_label)

/-- Model of `get_face_colors(body)`: fail unless the body has a tip with a
`Shape`, fail unless the tip's view object has `DiffuseColor`, fail when the
color count disagrees with the face count, else return `(faces, colors)`. -/
def get_face_colors (body : Obj) : Except Err (List Shape × List RGBA) :=
  match body.tip with
  | none => .error .noValidTip
  | some tip =>
    match tip.shape with
    | none => .error .noValidTip
    | some faces =>
      match tip.diffuseColor with
      | none => .error .noDiffuseColor
      | some colors =>
        if colors.length ≠ faces.length then
          .error (.countMismatch colors.length faces.length)
        else
          .ok (faces, colors)

/-- Model of `os.path.join(export_dir, filename)`. -/
def joinPath (dir file : String) : String :=
  dir ++ "/" ++ file

/-- Result of one `mesh_faces` call: either the skip branch (empty id list:
no path computed, no mesh built, no file written) or the path and mesh of the
single `mesh.write(path)` call. -/
inductive ExportResult where
  | skipped
  | exported (path : String) (mesh : Mesh)

/-- Model of `mesh_faces(body, faces, face_ids, suffix, export_dir,
linear_deflection, angular_deflection, relative)`.  For each 1-based id the
face `faces[i - 1]` is copied and the copy transformed by the global
placement matrix (`faces[i - 1].copy().transformGeometry(gp.toMatrix())`);
one transformed face is meshed directly, several are wrapped in
`Part.Shell` first.  Indexing is modelled totally with `getD`; the pipeline
only passes ids produced by `classify_faces`, which lie in
`1..len(faces)`. -/
def mesh_faces (body : Obj) (faces : List Shape) (face_ids : List ℕ) (suffix : String)
    (export_dir : String) (linear_deflection angular_deflection : ℚ) (relative : Bool) :
    ExportResult :=
  if face_ids.isEmpty then
    .skipped
  else
    let filename := body.label ++ "_" ++ suffix ++ ".stl"
    let path := joinPath export_dir filename
    let gp := body.globalPlacement
    let face_shapes := face_ids.map fun i =>
      Shape.transformGeometry (Shape.copy (faces.getD (i - 1) default)) gp.toMatrix
    let shape_to_mesh :=
      if face_shapes.length = 1 then face_shapes.getD 0 default
      else Shape.shell face_shapes
    .exported path
      (Mesh.fromShape shape_to_mesh linear_deflection angular_deflection relative)

/-- The module-level configuration block of the script
(`TARGET_LABELS`, `EXPORT_DIR`, the reference colors, the tolerance, and the
three mesh settings), passed explicitly. -/
structure Config where
  targetLabels : List String
  exportDir : String
  inletColor : RGB
  outletColor : RGB
  tolerance : ℚ
  linearDeflection : ℚ
  angularDeflection : ℚ
  relative : Bool

/-- Body of the per-target `try` block in `main`: find the body, extract
faces and colors, classify, then run the three `mesh_faces` calls (inlet,
outlet, body, in that order).  Any stage error short-circuits: nothing after
the failing stage runs for this target. -/
def process_target (cfg : Config) (doc : List Obj) (target_label : String) :
    Except Err (ExportResult × ExportResult × ExportResult) :=
  match find_body_by_label doc target_label with
  | .error e => .error e
  | .ok body =>
    match get_face_colors body with
    | .error e => .error e
    | .ok (faces, colors) =>
      let ids := classify_faces faces colors cfg.inletColor cfg.outletColor cfg.tolerance
      let inlet_ids := ids.1
      let outlet_ids := ids.2.1
      let body_ids := ids.2.2
      let r1 := mesh_faces body faces inlet_ids "inlet" cfg.exportDir
        cfg.linearDeflection cfg.angularDeflection cfg.relative
      let r2 := mesh_faces body faces outlet_ids "outlet" cfg.exportDir
        cfg.linearDeflection cfg.angularDeflection cfg.relative
      let r3 := mesh_faces body faces body_ids "body" cfg.exportDir
        cfg.linearDeflection cfg.angularDeflection cfg.relative
      .ok (r1, r2, r3)

/-- The summary state of `main`: the `processed` and `failed` accumulator
lists. -/
structure RunSummary where
  processed : List String
  failed : List (String × Err)
deriving DecidableEq

/-- One iteration of the `for target_label in TARGET_LABELS` loop: on
success append the label to `processed`, on an exception append
`(label, error)` to `failed` and continue. -/
def runStep (cfg : Config) (doc : List Obj) (s : RunSummary) (target_label : String) :
    RunSummary :=
  match process_target cfg doc target_label with
  | .ok _ => ⟨s.processed ++ [target_label], s.failed⟩
  | .error e => ⟨s.processed, s.failed ++ [(target_label, e)]⟩

/-- Model of `main()`: with no active document the run aborts with an
uncaught error before any target is visited; otherwise every configured
label is processed in order with per-target error capture, and the final
summary is returned. -/
def main (cfg : Config) (activeDocument : Option (List Obj)) : Except Err RunSummary :=
  match activeDocument with
  | none => .error .noActiveDocument
  | some doc => .ok (cfg.targetLabels.foldl (runStep cfg doc) ⟨[], []⟩)

/-! ### Lemmas about the color matcher and the classifier -/

/-- The inlet-match test applied by `classify_faces` to the 1-based
identifier `fid`. -/
def matchesInlet (colors : List RGBA) (inlet_color : RGB) (tolerance : ℚ) (fid : ℕ) : Bool :=
  is_color_match ((colors.getD (fid - 1) default).rgb) inlet_color tolerance

/-- The outlet-match test applied by `classify_faces` to the 1-based
identifier `fid`. -/
def matchesOutlet (colors : List RGBA) (outlet_color : RGB) (tolerance : ℚ) (fid : ℕ) : Bool :=
  is_color_match ((colors.getD (fid - 1) default).rgb) outlet_color tolerance

lemma is_color_match_iff (rgb target : RGB) (tol : ℚ) :
    is_color_match rgb target tol = true ↔
      |rgb.r - target.r| < tol ∧ |rgb.g - target.g| < tol ∧ |rgb.b - target.b| < tol := by
  rw [is_color_match, show List.range 3 = [0, 1, 2] from rfl]
  simp [RGB.channel]

/-- The three groups produced by the classification loop are the three
complementary filters of the identifier range `1..n`. -/
lemma classify_foldl_eq (colors : List RGBA) (ic oc : RGB) (tol : ℚ) (n : ℕ) :
    (List.range n).foldl (classifyStep colors ic oc tol) ([], [], []) =
      ((List.range' 1 n).filter (matchesInlet colors ic tol),
       (List.range' 1 n).filter
         (fun fid => !matchesInlet colors ic tol fid && matchesOutlet colors oc tol fid),
       (List.range' 1 n).filter
         (fun fid => !matchesInlet colors ic tol fid && !matchesOutlet colors oc tol fid)) := by
  induction n with
  | zero => rfl
  | succ n ih =>
    have hr : List.range' 1 (n + 1) = List.range' 1 n ++ [n + 1] := by
      rw [List.range'_1_concat, Nat.add_comm]
    rw [List.range_succ, List.foldl_append, ih, hr]
    simp only [List.foldl_cons, List.foldl_nil, List.filter_append]
    have hm : ∀ (c : List RGBA) (t : RGB), matchesInlet c t tol (n + 1)
        = is_color_match ((c.getD n default).rgb) t tol := by
      intro c t; rw [matchesInlet, Nat.add_sub_cancel]
    have hm' : ∀ (c : List RGBA) (t : RGB), matchesOutlet c t tol (n + 1)
        = is_color_match ((c.getD n default).rgb) t tol := by
      intro c t; rw [matchesOutlet, Nat.add_sub_cancel]
    cases h1 : is_color_match ((colors.getD n default).rgb) ic tol
      <;> cases h2 : is_color_match ((colors.getD n default).rgb) oc tol
      <;> simp [classifyStep, List.filter_cons, hm, hm', h1, h2,
            -List.getD_eq_getElem?_getD]

lemma sorted_range'_one (n : ℕ) : List.Sorted (· < ·) (List.range' 1 n) := by
  rw [List.range'_eq_map_range]
  exact List.pairwise_map.mpr ((List.sorted_lt_range n).imp fun h => by omega)

lemma mem_range'_one {m n : ℕ} : m ∈ List.range' 1 n ↔ 1 ≤ m ∧ m ≤ n := by
  rw [List.mem_range']
  constructor
  · rintro ⟨i, hi, rfl⟩; omega
  · intro ⟨h1, h2⟩; exact ⟨m - 1, by omega, by omega⟩

/-- Splitting a list into the elements satisfying `p`, those satisfying
`q` but not `p`, and the rest, is a permutation of the list. -/
lemma filter_three_perm (p q : α → Bool) (l : List α) :
    (l.filter p ++ ((l.filter fun x => !p x && q x) ++
      l.filter fun x => !p x && !q x)).Perm l := by
  induction l with
  | nil => simp
  | cons x t ih =>
    rcases h1 : p x
    · rcases h2 : q x
      · simp only [List.filter_cons, h1, h2, Bool.not_false, Bool.not_true, Bool.and_self,
          Bool.true_and, Bool.and_false, Bool.false_and, if_false, if_true, Bool.and_true]
        exact ((List.Perm.append_left _ List.perm_middle).trans List.perm_middle).trans
          (ih.cons x)
      · simp only [List.filter_cons, h1, h2, Bool.not_false, Bool.true_and, Bool.and_true,
          Bool.not_true, Bool.and_false, Bool.false_and, if_false, if_true]
        exact List.perm_middle.trans (ih.cons x)
    · simp only [List.filter_cons, h1, Bool.not_true, Bool.false_and, if_false, if_true]
      exact ih.cons x

lemma getD_rgb_congr (l₁ l₂ : List RGBA) (h : l₁.map RGBA.rgb = l₂.map RGBA.rgb) (i : ℕ) :
    (l₁.getD i default).rgb = (l₂.getD i default).rgb := by
  induction l₁ generalizing l₂ i with
  | nil =>
    cases l₂ with
    | nil => rfl
    | cons y s => simp at h
  | cons x t ih =>
    cases l₂ with
    | nil => simp at h
    | cons y s =>
      simp only [List.map_cons, List.cons.injEq] at h
      cases i with
      | zero => simpa using h.1
      | succ j => simpa using ih s h.2 j

/-! ### Claim theorems -/

unseal Rat.sub in
/-- C1: for every faces sequence and colors sequence of equal length `n`,
`classify_faces` returns three groups whose identifier lists are each
strictly ascending and together are a permutation of `{1..n}` (no omissions
and no duplicates, within or across groups); in particular, for 5 faces
colored yellow, yellow, red, white, white with inlet=yellow, outlet=red and
tolerance `1e-4 = mkRat 1 10000`, the result is inlet `[1, 2]`, outlet `[3]`,
body `[4, 5]`. -/
theorem C1_classify_partitions_identifiers :
    (∀ (faces : List Shape) (colors : List RGBA) (ic oc : RGB) (tol : ℚ),
      faces.length = colors.length →
      List.Sorted (· < ·) (classify_faces faces colors ic oc tol).1 ∧
      List.Sorted (· < ·) (classify_faces faces colors ic oc tol).2.1 ∧
      List.Sorted (· < ·) (classify_faces faces colors ic oc tol).2.2 ∧
      ((classify_faces faces colors ic oc tol).1 ++
        (classify_faces faces colors ic oc tol).2.1 ++
        (classify_faces faces colors ic oc tol).2.2).Perm
          (List.range' 1 faces.length)) ∧
    classify_faces (List.replicate 5 (Shape.prim 0))
      [⟨1, 1, 0, 1⟩, ⟨1, 1, 0, 1⟩, ⟨1, 0, 0, 1⟩, ⟨1, 1, 1, 1⟩, ⟨1, 1, 1, 1⟩]
      ⟨1, 1, 0⟩ ⟨1, 0, 0⟩ (mkRat 1 10000) = ([1, 2], [3], [4, 5]) := by
  constructor
  · intro faces colors ic oc tol _
    rw [classify_faces, classify_foldl_eq]
    refine ⟨(sorted_range'_one _).filter _, (sorted_range'_one _).filter _,
      (sorted_range'_one _).filter _, ?_⟩
    rw [List.append_assoc]
    exact filter_three_perm _ _ _
  · decide

/-- C2: `is_color_match` returns true iff the absolute difference of each of
the three channels is strictly less than the tolerance; a channel difference
exactly equal to the tolerance does not match, and a tolerance ≤ 0 never
matches. -/
theorem C2_is_color_match_strict :
    (∀ (rgb target : RGB) (tol : ℚ), is_color_match rgb target tol = true ↔
      |rgb.r - target.r| < tol ∧ |rgb.g - target.g| < tol ∧ |rgb.b - target.b| < tol) ∧
    (∀ (rgb target : RGB) (tol : ℚ),
      (|rgb.r - target.r| = tol ∨ |rgb.g - target.g| = tol ∨ |rgb.b - target.b| = tol) →
      is_color_match rgb target tol = false) ∧
    (∀ (rgb target : RGB) (tol : ℚ), tol ≤ 0 → is_color_match rgb target tol = false) := by
  refine ⟨is_color_match_iff, ?_, ?_⟩
  · intro rgb target tol h
    cases hm : is_color_match rgb target tol with
    | false => rfl
    | true =>
      obtain ⟨h1, h2, h3⟩ := (is_color_match_iff rgb target tol).mp hm
      rcases h with h | h | h
      · rw [h] at h1; exact absurd h1 (lt_irrefl tol)
      · rw [h] at h2; exact absurd h2 (lt_irrefl tol)
      · rw [h] at h3; exact absurd h3 (lt_irrefl tol)
  · intro rgb target tol h
    cases hm : is_color_match rgb target tol with
    | false => rfl
    | true =>
      obtain ⟨h1, _, _⟩ := (is_color_match_iff rgb target tol).mp hm
      exact absurd (lt_of_lt_of_le h1 h) (not_lt.mpr (abs_nonneg _))

/-- C3: reference colors are tested in priority order with the first match
winning: a face whose color is within tolerance of both references is placed
in the inlet group only, and a face matching neither reference is placed in
the catch-all body group only. -/
theorem C3_inlet_priority (faces : List Shape) (colors : List RGBA)
    (ic oc : RGB) (tol : ℚ) (i : ℕ) (hi : i < faces.length) :
    (is_color_match ((colors.getD i default).rgb) ic tol = true →
      is_color_match ((colors.getD i default).rgb) oc tol = true →
      (i + 1) ∈ (classify_faces faces colors ic oc tol).1 ∧
      (i + 1) ∉ (classify_faces faces colors ic oc tol).2.1 ∧
      (i + 1) ∉ (classify_faces faces colors ic oc tol).2.2) ∧
    (is_color_match ((colors.getD i default).rgb) ic tol = false →
      is_color_match ((colors.getD i default).rgb) oc tol = false →
      (i + 1) ∈ (classify_faces faces colors ic oc tol).2.2 ∧
      (i + 1) ∉ (classify_faces faces colors ic oc tol).1 ∧
      (i + 1) ∉ (classify_faces faces colors ic oc tol).2.1) := by
  have hmem : (i + 1) ∈ List.range' 1 faces.length :=
    mem_range'_one.mpr ⟨by omega, by omega⟩
  have hmi : matchesInlet colors ic tol (i + 1)
      = is_color_match ((colors.getD i default).rgb) ic tol := by
    rw [matchesInlet, Nat.add_sub_cancel]
  have hmo : matchesOutlet colors oc tol (i + 1)
      = is_color_match ((colors.getD i default).rgb) oc tol := by
    rw [matchesOutlet, Nat.add_sub_cancel]
  rw [classify_faces, classify_foldl_eq]
  constructor
  · intro h1 h2
    refine ⟨List.mem_filter.mpr ⟨hmem, by rw [hmi]; exact h1⟩, ?_, ?_⟩
    · intro hx
      have hp := (List.mem_filter.mp hx).2
      simp only [hmi, hmo, h1, h2, Bool.not_true, Bool.false_and,
        Bool.false_eq_true] at hp
    · intro hx
      have hp := (List.mem_filter.mp hx).2
      simp only [hmi, hmo, h1, h2, Bool.not_true, Bool.false_and,
        Bool.false_eq_true] at hp
  · intro h1 h2
    refine ⟨List.mem_filter.mpr ⟨hmem, by
      simp only [hmi, hmo, h1, h2, Bool.not_false, Bool.and_self]⟩, ?_, ?_⟩
    · intro hx
      have hp := (List.mem_filter.mp hx).2
      simp only [hmi, h1, Bool.false_eq_true] at hp
    · intro hx
      have hp := (List.mem_filter.mp hx).2
      simp only [hmi, hmo, h1, h2, Bool.not_false, Bool.true_and,
        Bool.false_eq_true] at hp

unseal Rat.sub in
/-- Witness for C3: with tolerance `1` the single face's color `(1, 0, 0)`
is within tolerance of both references, and lands in the inlet group only. -/
theorem C3_inlet_priority_witness :
    (1 ∈ (classify_faces [Shape.prim 0] [⟨1, 0, 0, 1⟩] ⟨1, 0, 0⟩ ⟨1, 0, 0⟩ 1).1 ∧
      1 ∉ (classify_faces [Shape.prim 0] [⟨1, 0, 0, 1⟩] ⟨1, 0, 0⟩ ⟨1, 0, 0⟩ 1).2.1 ∧
      1 ∉ (classify_faces [Shape.prim 0] [⟨1, 0, 0, 1⟩] ⟨1, 0, 0⟩ ⟨1, 0, 0⟩ 1).2.2) :=
  (C3_inlet_priority [Shape.prim 0] [⟨1, 0, 0, 1⟩] ⟨1, 0, 0⟩ ⟨1, 0, 0⟩ 1 0
    (by decide)).1 (by decide) (by decide)

/-- C10: classification reads only the first three channels of each color
entry: two color lists with identical RGB channels (and arbitrary alpha
channels) produce identical inlet, outlet and body groups. -/
theorem C10_alpha_noninterference (faces : List Shape) (colors₁ colors₂ : List RGBA)
    (ic oc : RGB) (tol : ℚ) (h : colors₁.map RGBA.rgb = colors₂.map RGBA.rgb) :
    classify_faces faces colors₁ ic oc tol = classify_faces faces colors₂ ic oc tol := by
  have hstep : classifyStep colors₁ ic oc tol = classifyStep colors₂ ic oc tol := by
    funext acc i
    simp only [classifyStep]
    rw [getD_rgb_congr colors₁ colors₂ h i]
  rw [classify_faces, classify_faces, hstep]

/-- Witness for C10: two single-entry color lists that differ only in the
alpha channel classify identically. -/
theorem C10_alpha_noninterference_witness :
    classify_faces [Shape.prim 0] [⟨1, 1, 0, 1⟩] ⟨1, 1, 0⟩ ⟨1, 0, 0⟩ 1
      = classify_faces [Shape.prim 0] [⟨1, 1, 0, 0⟩] ⟨1, 1, 0⟩ ⟨1, 0, 0⟩ 1 :=
  C10_alpha_noninterference [Shape.prim 0] [⟨1, 1, 0, 1⟩] [⟨1, 1, 0, 0⟩]
    ⟨1, 1, 0⟩ ⟨1, 0, 0⟩ 1 rfl

/-! ### Lemmas about the pipeline -/

/-- Whether an `Except` result is a success. -/
def exceptIsOk {ε α : Type _} : Except ε α → Bool
  | .ok _ => true
  | .error _ => false

/-- The `(label, error)` record that processing `label` contributes to the
`failed` summary list, if any. -/
def failRecord (cfg : Config) (doc : List Obj) (label : String) : Option (String × Err) :=
  match process_target cfg doc label with
  | .error e => some (label, e)
  | .ok _ => none

/-- The target loop of `main` appends, to any starting summary, the labels
whose processing succeeds and the `(label, error)` pairs of those that
fail, preserving label order. -/
lemma runStep_foldl (cfg : Config) (doc : List Obj) (labels : List String) (s : RunSummary) :
    labels.foldl (runStep cfg doc) s =
      ⟨s.processed ++ labels.filter (fun l => exceptIsOk (process_target cfg doc l)),
       s.failed ++ labels.filterMap (failRecord cfg doc)⟩ := by
  induction labels generalizing s with
  | nil => simp
  | cons l ls ih =>
    rw [List.foldl_cons, ih]
    cases h : process_target cfg doc l with
    | ok v =>
      simp [runStep, h, exceptIsOk, failRecord, List.filter_cons, List.filterMap_cons]
    | error e =>
      simp [runStep, h, exceptIsOk, failRecord, List.filter_cons, List.filterMap_cons]

/-- C4: when the tip's color count differs from its face count, the target
fails with the count-mismatch error already in `get_face_colors` — before
any classification — so `process_target` produces no groups and no export
for that target, the label is never recorded as processed, and the run
records the `(label, error)` pair while continuing (the summary for the
other labels is still produced). -/
theorem C4_count_mismatch_aborts_target (cfg : Config) (doc : List Obj) (label : String)
    (body : Obj) (faces : List Shape) (colors : List RGBA)
    (hfind : find_body_by_label doc label = .ok body)
    (htip : body.tip = some ⟨some faces, some colors⟩)
    (hne : colors.length ≠ faces.length) :
    get_face_colors body = .error (.countMismatch colors.length faces.length) ∧
    process_target cfg doc label = .error (.countMismatch colors.length faces.length) ∧
    (∀ s : RunSummary, main cfg (some doc) = .ok s →
      label ∉ s.processed ∧
      (label ∈ cfg.targetLabels →
        (label, Err.countMismatch colors.length faces.length) ∈ s.failed)) := by
  have hg : get_face_colors body = .error (.countMismatch colors.length faces.length) := by
    rw [get_face_colors, htip]
    simp [hne]
  have hp : process_target cfg doc label
      = .error (.countMismatch colors.length faces.length) := by
    simp only [process_target, hfind, hg]
  refine ⟨hg, hp, ?_⟩
  intro s hs
  rw [show main cfg (some doc)
      = .ok (cfg.targetLabels.foldl (runStep cfg doc) ⟨[], []⟩) from rfl,
    runStep_foldl] at hs
  obtain rfl := (Except.ok.inj hs).symm
  constructor
  · intro hmem
    have hb := (List.mem_filter.mp hmem).2
    rw [hp] at hb
    simp [exceptIsOk] at hb
  · intro hmem
    exact List.mem_filterMap.mpr ⟨label, by simpa using hmem, by
      simp only [failRecord, hp]⟩

/-- Witness for C4: a direct body labelled `L` with an empty face list but
one color entry fails with `countMismatch 1 0`, and a run over the single
target `L` records exactly that failure. -/
theorem C4_count_mismatch_aborts_target_witness :
    get_face_colors (Obj.mk "L" "PartDesign::Body"
        (some ⟨some [], some [⟨0, 0, 0, 1⟩]⟩) ⟨0⟩ [])
      = .error (.countMismatch 1 0) ∧
    process_target ⟨["L"], "out", ⟨1, 1, 0⟩, ⟨1, 0, 0⟩, 1, 1, 1, false⟩
        [Obj.mk "L" "PartDesign::Body" (some ⟨some [], some [⟨0, 0, 0, 1⟩]⟩) ⟨0⟩ []] "L"
      = .error (.countMismatch 1 0) ∧
    (∀ s : RunSummary,
      main ⟨["L"], "out", ⟨1, 1, 0⟩, ⟨1, 0, 0⟩, 1, 1, 1, false⟩
          (some [Obj.mk "L" "PartDesign::Body"
            (some ⟨some [], some [⟨0, 0, 0, 1⟩]⟩) ⟨0⟩ []]) = .ok s →
      "L" ∉ s.processed ∧
      ("L" ∈ (⟨["L"], "out", ⟨1, 1, 0⟩, ⟨1, 0, 0⟩, 1, 1, 1, false⟩ : Config).targetLabels →
        ("L", Err.countMismatch 1 0) ∈ s.failed)) :=
  C4_count_mismatch_aborts_target ⟨["L"], "out", ⟨1, 1, 0⟩, ⟨1, 0, 0⟩, 1, 1, 1, false⟩
    [Obj.mk "L" "PartDesign::Body" (some ⟨some [], some [⟨0, 0, 0, 1⟩]⟩) ⟨0⟩ []] "L"
    (Obj.mk "L" "PartDesign::Body" (some ⟨some [], some [⟨0, 0, 0, 1⟩]⟩) ⟨0⟩ [])
    [] [⟨0, 0, 0, 1⟩] rfl rfl (by decide)

/-- C7: calling `mesh_faces` with an empty id list is the skip branch: no
path is computed, no mesh is built, nothing is written. -/
theorem C7_empty_group_skipped (body : Obj) (faces : List Shape)
    (suffix export_dir : String) (lin ang : ℚ) (rel : Bool) :
    mesh_faces body faces [] suffix export_dir lin ang rel = .skipped :=
  rfl

/-- C8: the run over a document processes the configured labels in order,
records each successful label in `processed` and each failure as its
`(label, error)` pair in `failed`, and no failure stops the remaining
labels: the summary is exactly the filter of successes and the filter-map
of failures over the whole label list. -/
theorem C8_failures_isolated_per_target (cfg : Config) (doc : List Obj) :
    main cfg (some doc) = .ok
      ⟨cfg.targetLabels.filter (fun l => exceptIsOk (process_target cfg doc l)),
       cfg.targetLabels.filterMap (failRecord cfg doc)⟩ := by
  rw [show main cfg (some doc)
      = .ok (cfg.targetLabels.foldl (runStep cfg doc) ⟨[], []⟩) from rfl,
    runStep_foldl]
  rfl

/-- C9: with no active document, `main` aborts with the fatal error before
any target is visited (no summary, hence no per-label record, is produced);
with an active document the run always returns a summary, so no other
failure is fatal to the whole run. -/
theorem C9_missing_document_fatal :
    (∀ cfg : Config, main cfg none = .error .noActiveDocument) ∧
    (∀ (cfg : Config) (doc : List Obj), ∃ s : RunSummary, main cfg (some doc) = .ok s) :=
  ⟨fun _ => rfl, fun cfg doc => ⟨_, rfl⟩⟩

/-- A body labelled `Inner`, member of the part below. -/
def c5inner : Obj := .mk "Inner" "PartDesign::Body" none ⟨0⟩ []

/-- An `App::Part` labelled `L` containing one body. -/
def c5part : Obj := .mk "L" "App::Part" none ⟨0⟩ [c5inner]

/-- A direct `PartDesign::Body` also labelled `L`. -/
def c5body : Obj := .mk "L" "PartDesign::Body" none ⟨0⟩ []

/-- Counterexample to C5 as stated: in a document holding both a grouping
`App::Part` and a direct `PartDesign::Body` labelled `L`, with the part
listed first, `find_body_by_label` resolves to the part's member body, not
to the direct body — the direct container does not take precedence
regardless of document order. -/
theorem C5_counterexample_part_first_wins :
    find_body_by_label [c5part, c5body] "L" = .ok c5inner ∧
    find_body_by_label [c5part, c5body] "L" ≠ .ok c5body := by
  refine ⟨rfl, fun h => ?_⟩
  rw [show find_body_by_label [c5part, c5body] "L" = .ok c5inner from rfl] at h
  exact absurd (congrArg Obj.label (Except.ok.inj h)) (by decide)

/-- C5 amended: the resolution is decided by the first object in document
order whose label matches: if that object is a direct `PartDesign::Body` it
is used, and if it is an `App::Part` the first `PartDesign::Body` member of
its group is used. -/
theorem C5_first_label_match_decides (doc : List Obj) (label : String) (b : Obj)
    (hfind : doc.find? (fun o => o.label == label) = some b) :
    (b.typeId = "PartDesign::Body" → find_body_by_label doc label = .ok b) ∧
    (∀ (m : Obj) (ms : List Obj), b.typeId = "App::Part" →
      b.group.filter (fun o => o.typeId == "PartDesign::Body") = m :: ms →
      find_body_by_label doc label = .ok m) := by
  constructor
  · intro ht
    simp [find_body_by_label, hfind, Option.filter, ht]
  · intro m ms ht hgrp
    simp [find_body_by_label, hfind, Option.filter, ht, hgrp]

/-- Witness for C5 (amended): when the first label match is the direct
body, it is returned. -/
theorem C5_first_label_match_decides_witness :
    find_body_by_label [c5body] "L" = .ok c5body :=
  (C5_first_label_match_decides [c5body] "L" c5body rfl).1 rfl

/-- C6: each identifier `i` in the group fetches the face at index `i - 1`,
copies it, and applies the global placement transform to the copy (the
transform is applied to the copy, the original face term is left intact
inside the constructor); a single-face group meshes the transformed copy
directly, while a group of two or more faces is assembled into a shell that
is then meshed. -/
theorem C6_copy_transform_shell_mesh (body : Obj) (faces : List Shape)
    (suffix export_dir : String) (lin ang : ℚ) (rel : Bool) :
    (∀ i : ℕ, mesh_faces body faces [i] suffix export_dir lin ang rel =
      .exported (joinPath export_dir (body.label ++ "_" ++ suffix ++ ".stl"))
        (Mesh.fromShape
          (Shape.transformGeometry (Shape.copy (faces.getD (i - 1) default))
            body.globalPlacement.toMatrix) lin ang rel)) ∧
    (∀ (i j : ℕ) (rest : List ℕ),
      mesh_faces body faces (i :: j :: rest) suffix export_dir lin ang rel =
      .exported (joinPath export_dir (body.label ++ "_" ++ suffix ++ ".stl"))
        (Mesh.fromShape
          (Shape.shell ((i :: j :: rest).map fun k =>
            Shape.transformGeometry (Shape.copy (faces.getD (k - 1) default))
              body.globalPlacement.toMatrix)) lin ang rel)) := by
  constructor
  · intro i
    rfl
  · intro i j rest
    simp [mesh_faces]

end ExportStl
